import Mathlib

/-!
Verification development for the self-correcting parser-generation agent
(src/agent.py).  The pure data transformations of the program are translated
directly into Lean functions; the external effects (the text-generation
service, the filesystem, the verification subprocess, the process
environment) are supplied as explicit inputs or oracles.  String values are
modelled by Lean `String`, with the Python string primitives (strip,
startswith, endswith, slicing, substring test) re-implemented over the
underlying character lists.
-/

/-! ### Configuration constants (agent.py, lines 11-14) -/

def MAX_ATTEMPTS : Nat := 3

def TARGET_PARSER_PATH : String := "custom_parsers/icici_parser.py"

def TARGET_CSV_PATH : String := "data/icici/result.csv"

def TARGET_PDF_PATH : String := "data/icici/icici_sample.pdf"

/-! ### Python string primitives -/

/-- Python str whitespace (ASCII): space, tab, newline, carriage return,
vertical tab, form feed. -/
def isPyWs (c : Char) : Bool :=
  c = ' ' || c = '\t' || c = '\n' || c = '\r' || c = '\x0b' || c = '\x0c'

/-- Remove leading whitespace from a character list. -/
def trimLeftChars (l : List Char) : List Char := l.dropWhile isPyWs

/-- Remove trailing whitespace from a character list. -/
def trimRightChars (l : List Char) : List Char :=
  (l.reverse.dropWhile isPyWs).reverse

/-- Python `str.strip()`. -/
def pyStrip (s : String) : String := ⟨trimRightChars (trimLeftChars s.data)⟩

/-- Python `str.startswith(pre)`. -/
def strStartsWith (s pre : String) : Bool := decide (pre.data <+: s.data)

/-- Python `str.endswith(suf)`. -/
def strEndsWith (s suf : String) : Bool := decide (suf.data <:+ s.data)

/-- Python `needle in hay` substring test. -/
def strContains (hay needle : String) : Bool := decide (needle.data <:+: hay.data)

/-- Python slicing `s[n:]`. -/
def strDrop (s : String) (n : Nat) : String := ⟨s.data.drop n⟩

/-- Python slicing `s[:-n]`. -/
def strDropRight (s : String) (n : Nat) : String :=
  ⟨s.data.take (s.data.length - n)⟩

/-! ### Sanitization of the service response (agent.py, lines 101-113) -/

/-- Step stripping a leading fenced-code marker, with or without the
language tag (agent.py, lines 105-108). -/
def stripLeadingFence (s : String) : String :=
  if strStartsWith s "```python" then strDrop s 9
  else if strStartsWith s "```" then strDrop s 3
  else s

/-- Step stripping a trailing fenced-code marker (agent.py, lines 110-111). -/
def stripTrailingFence (s : String) : String :=
  if strEndsWith s "```" then strDropRight s 3 else s

/-- Sanitization performed by `generate_parser_code` on the raw content of
the service response (agent.py, lines 101-113): strip whitespace, strip a
leading fence marker, strip a trailing fence marker, re-strip whitespace.
The service invocation itself is supplied by an oracle in the loop below. -/
def generate_parser_code (content : String) : String :=
  pyStrip (stripTrailingFence (stripLeadingFence (pyStrip content)))

/-- Removal of every non-overlapping, left-to-right occurrence of a triple
backtick from a character list, written structurally with the list length as
fuel so that the kernel can evaluate it. -/
def removeFencesGo : Nat → List Char → List Char
  | 0, l => l
  | _ + 1, [] => []
  | n + 1, c :: t =>
    if "```".data.isPrefixOf (c :: t) then removeFencesGo n (t.drop 2)
    else c :: removeFencesGo n t

/-- Content actually written by `save_code_to_file` (agent.py, lines
115-121): the Python code runs `code.replace(...)` to delete every remaining
triple-backtick sequence before the file is overwritten. -/
def save_code_to_file (code : String) : String :=
  ⟨removeFencesGo code.data.length code.data⟩

/-! ### Prompt construction (agent.py, lines 38-89 and 204) -/

/-- System message of the prompt template (agent.py, lines 41-55). -/
def system_message : String :=
  "You are a Python code generation engine. Your ONLY output should be raw Python code. Do not add any explanations, comments, or text that is not valid Python.\n\n"
  ++ "         Your task is to write a Python file containing one function: `parse(pdf_path: str) -> pd.DataFrame`.\n\n"
  ++ "         **CRITICAL RULES:**\n"
  ++ "         1.  Your output MUST be ONLY Python code. Nothing else.\n"
  ++ "         2.  Do not include markdown fences like ```python or ```.\n"
  ++ "         3.  Do not include any English explanations.\n"
  ++ "         4.  Use `pdfplumber` to read the PDF text line by line. Do not use table extraction tools.\n"
  ++ "         5.  The PDF has transaction data that begins after a header row.\n"
  ++ "         6.  A transaction line can be identified by its structure: the first word is a date, the last is a balance, and the second to last is an amount. Everything between the date and the amount is the description.\n"
  ++ "         7.  The final DataFrame must have these exact columns: [\x27Date\x27, \x27Description\x27, \x27Debit Amt\x27, \x27Credit Amt\x27, \x27Balance\x27].\n"
  ++ "         8.  Convert amount columns to float and fill missing values with 0.0.\n         "

/-- Part of the human message that precedes the error feedback slot
(agent.py, lines 57-85). -/
def human_front (schema pdf_sample : String) : String :=
  "\n         Here is the context for the task:\n\n         **Target DataFrame Schema (from the ground truth CSV):**\n         "
  ++ schema
  ++ "\n\n         **Text Sample from the first page of the PDF:**\n         ```\n         "
  ++ pdf_sample
  ++ "\n         ```\n\n         **Example of expected output for a few rows:**\n"
  ++ "         A single transaction from the PDF might look like this when processed into a data row:\n"
  ++ "         - Date: \x2703-08-2024\x27\n"
  ++ "         - Description: \x27IMPS UPI Payment Amazon\x27\n"
  ++ "         - Debit Amt: 3886.08\n"
  ++ "         - Credit Amt: 0.0\n"
  ++ "         - Balance: 4631.11\n\n"
  ++ "         Another example:\n"
  ++ "         - Date: \x2718-08-2024\x27\n"
  ++ "         - Description: \x27Interest Credit Saving Account\x27\n"
  ++ "         - Debit Amt: 596.72\n"
  ++ "         - Credit Amt: 0.0\n"
  ++ "         - Balance: 11524.79\n         \n"
  ++ "         Notice that for a debit transaction, the \x27Credit Amt\x27 can be 0, and vice-versa. The column names must be exactly \x27Date\x27, \x27Description\x27, \x27Debit Amt\x27, \x27Credit Amt\x27, \x27Balance\x27.\n\n         "

/-- Part of the human message that follows the error feedback slot
(agent.py, lines 86-88). -/
def human_back (parser_path : String) : String :=
  "\n\n         Now, please generate the complete Python code for the `"
  ++ parser_path
  ++ "` file.\n         "

/-- Human message of the prompt after substitution of the four template
variables (agent.py, lines 56-88 together with the `invoke` arguments at
lines 94-99). -/
def human_message (schema pdf_sample error_feedback parser_path : String) : String :=
  human_front schema pdf_sample ++ error_feedback ++ human_back parser_path

/-- Fully substituted prompt: the (system, human) message pair produced by
`create_prompt_template` once the chain fills in the template variables. -/
def create_prompt_template (schema pdf_sample error_feedback parser_path : String) :
    String × String :=
  (system_message, human_message schema pdf_sample error_feedback parser_path)

/-- Corrective feedback built from a failed attempt (agent.py, line 204).
The assignment overwrites the previous feedback: the new value is a function
of the error message alone. -/
def feedback_message (error_message : String) : String :=
  "The previous attempt failed. Here is the error message:\n"
  ++ error_message
  ++ "\nPlease analyze the error and provide a corrected version of the code."

/-! ### Environment and context loading (agent.py, lines 16-34, 165-175) -/

/-- setup_environment (agent.py, lines 16-20): `hasKey` tells whether
GROQ_API_KEY is present in the process environment. -/
def setup_environment (hasKey : Bool) : Except String Unit :=
  if hasKey then Except.ok () else Except.error "GROQ_API_KEY not found in .env file"

/-- get_pdf_text_sample (agent.py, lines 26-34): `pdf` is the text of the
first page when the reference document can be read, `none` when reading
raises; failure yields a sentinel instead of propagating. -/
def get_pdf_text_sample (pdf : Option String) : String :=
  match pdf with
  | some t => t
  | none => "Could not extract text."

/-! ### Isolated verification (agent.py, lines 125-162) -/

/-- Captured output of the verification subprocess. -/
structure SubprocResult where
  stdout : String
  stderr : String
deriving Repr, DecidableEq

/-- test_generated_parser (agent.py, lines 125-162).  The argument is the
outcome of `subprocess.run`: `Except.ok` carries the captured stdout and
stderr, `Except.error` carries the message of an exception raised by the
call itself (for example the timeout).  Pass holds exactly when the marker
SUCCESS occurs in stdout; otherwise the diagnostic embeds stderr when it is
nonempty and stdout when stderr is empty. -/
def test_generated_parser_fn (res : Except String SubprocResult) : Bool × String :=
  match res with
  | Except.ok r =>
    if strContains r.stdout "SUCCESS" then (true, "")
    else (false, "Testing failed. Error:\n" ++ (if r.stderr = "" then r.stdout else r.stderr))
  | Except.error e => (false, "An unexpected error occurred during testing: " ++ e)

/-! ### The orchestrator loop (agent.py, lines 165-206) -/

/-- Terminal outcome of a run of `main`. -/
inductive RunOutcome where
  | success (attempt : Nat) : RunOutcome
  | exhausted : RunOutcome
  | raisedError (msg : String) : RunOutcome
deriving Repr, DecidableEq

/-- Observable result of the orchestrator: terminal outcome, number of
generation cycles started, artifact contents written (in order), and the
final value of the feedback string. -/
structure RunResult where
  outcome : RunOutcome
  attempts : Nat
  writes : List String
  feedback : String
deriving Repr, DecidableEq

/-- One-to-one translation of the `for attempt in range(1, MAX_ATTEMPTS + 1)`
loop of `main` (agent.py, lines 177-206).  `remaining` is the number of
iterations the range still allows and `k` the attempt number of the next
iteration; `llm` maps an attempt number and the substituted prompt to the
service response (`Except.error` models a raised exception, which the code
does not catch); `sub` is the subprocess outcome consumed by
`test_generated_parser_fn`. -/
def loopGo (schema pdfSample : String)
    (llm : Nat → String × String → Except String String)
    (sub : Nat → Except String SubprocResult) :
    Nat → Nat → String → List String → RunResult
  | 0, k, feedback, writes =>
    { outcome := RunOutcome.exhausted, attempts := k - 1, writes := writes, feedback := feedback }
  | remaining + 1, k, feedback, writes =>
    match llm k (create_prompt_template schema pdfSample feedback TARGET_PARSER_PATH) with
    | Except.error e =>
      { outcome := RunOutcome.raisedError e, attempts := k, writes := writes, feedback := feedback }
    | Except.ok content =>
      let written := save_code_to_file (generate_parser_code content)
      let r := test_generated_parser_fn (sub k)
      if r.1 then
        { outcome := RunOutcome.success k, attempts := k, writes := writes ++ [written],
          feedback := feedback }
      else
        loopGo schema pdfSample llm sub remaining (k + 1) (feedback_message r.2)
          (writes ++ [written])

/-- The loop as entered by `main`: MAX_ATTEMPTS iterations available,
starting at attempt 1 with empty feedback and no artifact written. -/
def run_loop (schema pdfSample : String)
    (llm : Nat → String × String → Except String String)
    (sub : Nat → Except String SubprocResult) : RunResult :=
  loopGo schema pdfSample llm sub MAX_ATTEMPTS 1 "" []

/-- Body of `main` after the banner print (agent.py, lines 168-206):
key check, ground-truth table load (`csv` is `none` when `read_csv` raises,
which the code does not catch), sample extraction with sentinel, then the
loop. -/
def mainRunCore (hasKey : Bool) (csv pdf : Option String)
    (llm : Nat → String × String → Except String String)
    (sub : Nat → Except String SubprocResult) : RunResult :=
  match setup_environment hasKey with
  | Except.error e =>
    { outcome := RunOutcome.raisedError e, attempts := 0, writes := [], feedback := "" }
  | Except.ok _ =>
    match csv with
    | none =>
      { outcome := RunOutcome.raisedError ("FileNotFoundError: " ++ TARGET_CSV_PATH),
        attempts := 0, writes := [], feedback := "" }
    | some schema => run_loop schema (get_pdf_text_sample pdf) llm sub

/-- Result of `main (target)` including the only place the target string is
used: the progress banner printed at entry (agent.py, line 166). -/
structure MainResult where
  banner : String
  run : RunResult
deriving Repr, DecidableEq

/-- main (agent.py, lines 165-206).  The target identifier reaches only the
banner; every path, file location and loop decision comes from the fixed
configuration constants and the oracles. -/
def main_fn (hasKey : Bool) (csv pdf : Option String)
    (llm : Nat → String × String → Except String String)
    (sub : Nat → Except String SubprocResult) (target : String) : MainResult :=
  { banner := "🚀 Starting agent to build parser for: " ++ target,
    run := mainRunCore hasKey csv pdf llm sub }

/-! ### Lemmas about the string primitives -/

/-- dropWhile is idempotent. -/
theorem dropWhile_idem {α : Type} (p : α → Bool) (l : List α) :
    (l.dropWhile p).dropWhile p = l.dropWhile p := by
  induction l with
  | nil => rfl
  | cons a t ih =>
    cases h : p a with
    | true => simp [List.dropWhile_cons, h, ih]
    | false => simp [List.dropWhile_cons, h]

/-- The head surviving a dropWhile fails the predicate. -/
theorem dropWhile_head_false {α : Type} (p : α → Bool) (l : List α) (a : α)
    (t : List α) (h : l.dropWhile p = a :: t) : p a = false := by
  induction l with
  | nil => simp at h
  | cons b u ih =>
    rw [List.dropWhile_cons] at h
    cases hb : p b with
    | true => rw [hb] at h; simp at h; exact ih h
    | false =>
      rw [hb] at h
      simp at h
      exact h.1 ▸ hb

/-- Left trimming is idempotent. -/
theorem trimLeftChars_idem (l : List Char) :
    trimLeftChars (trimLeftChars l) = trimLeftChars l :=
  dropWhile_idem isPyWs l

/-- Right trimming is idempotent. -/
theorem trimRightChars_idem (l : List Char) :
    trimRightChars (trimRightChars l) = trimRightChars l := by
  unfold trimRightChars
  rw [List.reverse_reverse, dropWhile_idem]

/-- Right trimming only removes elements from the end of the list. -/
theorem trimRightChars_append_eq (z : List Char) :
    ∃ u, trimRightChars z ++ u = z := by
  have h : z.reverse.dropWhile isPyWs <:+ z.reverse := List.dropWhile_suffix isPyWs
  obtain ⟨u, hu⟩ := h
  refine ⟨u.reverse, ?_⟩
  have h2 := congrArg List.reverse hu
  simpa [trimRightChars, List.reverse_append] using h2

/-- A left-trimmed list stays left-trimmed after right trimming. -/
theorem trimLeft_trimRight_fix (l : List Char) :
    trimLeftChars (trimRightChars (trimLeftChars l)) = trimRightChars (trimLeftChars l) := by
  cases h : trimRightChars (trimLeftChars l) with
  | nil => rfl
  | cons a t =>
    obtain ⟨u, hu⟩ := trimRightChars_append_eq (trimLeftChars l)
    rw [h] at hu
    have hw : isPyWs a = false := by
      apply dropWhile_head_false isPyWs l a (t ++ u)
      have h3 : trimLeftChars l = a :: (t ++ u) := by rw [← hu]; simp
      simpa [trimLeftChars] using h3
    simp [trimLeftChars, List.dropWhile_cons, hw]

/-- Python strip is idempotent. -/
theorem pyStrip_idem (s : String) : pyStrip (pyStrip s) = pyStrip s := by
  show String.mk (trimRightChars (trimLeftChars (trimRightChars (trimLeftChars s.data))))
      = String.mk (trimRightChars (trimLeftChars s.data))
  rw [trimLeft_trimRight_fix, trimRightChars_idem]

/-- The middle of a three-part string concatenation is a substring of it. -/
theorem str_infix_append (a b c : String) : b.data <:+: (a ++ b ++ c).data := by
  rw [String.data_append, String.data_append]
  exact List.infix_append _ _ _

/-! ### Lemmas about the loop -/

/-- The loop performs at most as many further attempts as it has fuel. -/
theorem loopGo_attempts_le (schema pdfSample : String)
    (llm : Nat → String × String → Except String String)
    (sub : Nat → Except String SubprocResult) :
    ∀ (rem k : Nat) (f : String) (w : List String),
      (loopGo schema pdfSample llm sub rem k f w).attempts ≤ k - 1 + rem := by
  intro rem
  induction rem with
  | zero => intro k f w; simp [loopGo]
  | succ r ih =>
    intro k f w
    simp only [loopGo]
    cases hc : llm k (create_prompt_template schema pdfSample f TARGET_PARSER_PATH) with
    | error e => simp; omega
    | ok content =>
      cases hr : (test_generated_parser_fn (sub k)).1 with
      | true => simp [hr]; omega
      | false =>
        simp [hr]
        exact le_trans (ih (k + 1) _ _) (by omega)

/-- Reaching outcome `success j` means the loop stopped at attempt j with a
passing verification, and j is at or after the starting attempt. -/
theorem loopGo_success_attempts (schema pdfSample : String)
    (llm : Nat → String × String → Except String String)
    (sub : Nat → Except String SubprocResult) :
    ∀ (rem k : Nat) (f : String) (w : List String) (j : Nat),
      (loopGo schema pdfSample llm sub rem k f w).outcome = RunOutcome.success j →
      (loopGo schema pdfSample llm sub rem k f w).attempts = j
      ∧ k ≤ j ∧ (test_generated_parser_fn (sub j)).1 = true := by
  intro rem
  induction rem with
  | zero => intro k f w j h; simp [loopGo] at h
  | succ r ih =>
    intro k f w j h
    simp only [loopGo] at h ⊢
    cases hc : llm k (create_prompt_template schema pdfSample f TARGET_PARSER_PATH) with
    | error e => rw [hc] at h; simp at h
    | ok content =>
      rw [hc] at h
      cases hr : (test_generated_parser_fn (sub k)).1 with
      | true =>
        simp [hr] at h ⊢
        exact ⟨h, le_of_eq h, h ▸ hr⟩
      | false =>
        simp [hr] at h ⊢
        obtain ⟨ha, hb, hc2⟩ := ih (k + 1)
          (feedback_message (test_generated_parser_fn (sub k)).2)
          (w ++ [save_code_to_file (generate_parser_code content)]) j h
        exact ⟨ha, by omega, hc2⟩

/-- When the service answers on every attempt and the first passing
verification is at attempt k0, the loop stops there: outcome `success k0`
after exactly k0 attempts. -/
theorem loopGo_first_success (schema pdfSample : String)
    (llm : Nat → String × String → Except String String)
    (sub : Nat → Except String SubprocResult) (k0 : Nat)
    (hllm : ∀ j q, ∃ c, llm j q = Except.ok c)
    (hpass : (test_generated_parser_fn (sub k0)).1 = true) :
    ∀ (rem k : Nat) (f : String) (w : List String),
      k ≤ k0 → k0 < k + rem →
      (∀ j, k ≤ j → j < k0 → (test_generated_parser_fn (sub j)).1 = false) →
      (loopGo schema pdfSample llm sub rem k f w).outcome = RunOutcome.success k0
      ∧ (loopGo schema pdfSample llm sub rem k f w).attempts = k0 := by
  intro rem
  induction rem with
  | zero => intro k f w hk hlt hfail; omega
  | succ r ih =>
    intro k f w hk hlt hfail
    obtain ⟨c, hc⟩ := hllm k (create_prompt_template schema pdfSample f TARGET_PARSER_PATH)
    simp only [loopGo]
    rw [hc]
    by_cases hkk : k = k0
    · subst hkk
      simp [hpass]
    · have hklt : k < k0 := by omega
      have hf : (test_generated_parser_fn (sub k)).1 = false := hfail k (le_refl k) hklt
      simp [hf]
      exact ih (k + 1) (feedback_message (test_generated_parser_fn (sub k)).2)
        (w ++ [save_code_to_file (generate_parser_code c)])
        (by omega) (by omega) (fun j hj hjl => hfail j (by omega) hjl)

/-- C1: the orchestrator performs at most MAX_ATTEMPTS (= 3) generation
cycles; when the outcome is success at attempt j the loop stopped there
(attempt count equals j and verification passed at j); and when the service
always answers and attempt k0 within budget is the first whose verification
passes, the run stops at exactly k0 attempts with success — no attempt after
the first success. -/
theorem c1_loop_bounded (hasKey : Bool) (csv pdf : Option String)
    (llm : Nat → String × String → Except String String)
    (sub : Nat → Except String SubprocResult) (t : String) :
    (main_fn hasKey csv pdf llm sub t).run.attempts ≤ MAX_ATTEMPTS
    ∧ (∀ j, (main_fn hasKey csv pdf llm sub t).run.outcome = RunOutcome.success j →
        (main_fn hasKey csv pdf llm sub t).run.attempts = j
        ∧ (test_generated_parser_fn (sub j)).1 = true)
    ∧ (∀ schemaInfo k0, csv = some schemaInfo → hasKey = true →
        1 ≤ k0 → k0 ≤ MAX_ATTEMPTS →
        (∀ j q, ∃ c, llm j q = Except.ok c) →
        (∀ j, j < k0 → (test_generated_parser_fn (sub j)).1 = false) →
        (test_generated_parser_fn (sub k0)).1 = true →
        (main_fn hasKey csv pdf llm sub t).run.outcome = RunOutcome.success k0
        ∧ (main_fn hasKey csv pdf llm sub t).run.attempts = k0) := by
  refine ⟨?_, ?_, ?_⟩
  · cases hasKey with
    | false => simp [main_fn, mainRunCore, setup_environment, MAX_ATTEMPTS]
    | true =>
      cases csv with
      | none => simp [main_fn, mainRunCore, setup_environment, MAX_ATTEMPTS]
      | some schema =>
        have h := loopGo_attempts_le schema (get_pdf_text_sample pdf) llm sub MAX_ATTEMPTS 1 "" []
        simpa [main_fn, mainRunCore, setup_environment, run_loop, MAX_ATTEMPTS] using h
  · intro j hj
    cases hasKey with
    | false => simp [main_fn, mainRunCore, setup_environment] at hj
    | true =>
      cases csv with
      | none => simp [main_fn, mainRunCore, setup_environment] at hj
      | some schema =>
        have h := loopGo_success_attempts schema (get_pdf_text_sample pdf) llm sub
          MAX_ATTEMPTS 1 "" [] j
        simp only [main_fn, mainRunCore, setup_environment, run_loop] at hj ⊢
        simp at hj h
        exact ⟨(h hj).1, (h hj).2.2⟩
  · intro schemaInfo k0 hcsv hkey h1 h2 hllm hfail hpass
    subst hcsv
    subst hkey
    have h := loopGo_first_success schemaInfo (get_pdf_text_sample pdf) llm sub k0 hllm hpass
      MAX_ATTEMPTS 1 "" [] h1 (by simp only [MAX_ATTEMPTS] at h2 ⊢; omega)
      (fun j hj hjl => hfail j hjl)
    simpa [main_fn, mainRunCore, setup_environment, run_loop] using h

/-- Witness for C1: with a service that always answers, a failing first
verification and a passing second one, the run stops at attempt 2. -/
theorem c1_witness :
    (main_fn true (some "s") (some "p")
        (fun _ _ => Except.ok "print(1)")
        (fun j => Except.ok (if j ≤ 1 then ⟨"no", ""⟩ else ⟨"SUCCESS", ""⟩)) "icici").run.outcome
      = RunOutcome.success 2
    ∧ (main_fn true (some "s") (some "p")
        (fun _ _ => Except.ok "print(1)")
        (fun j => Except.ok (if j ≤ 1 then ⟨"no", ""⟩ else ⟨"SUCCESS", ""⟩)) "icici").run.attempts
      = 2 :=
  (c1_loop_bounded true (some "s") (some "p")
      (fun _ _ => Except.ok "print(1)")
      (fun j => Except.ok (if j ≤ 1 then ⟨"no", ""⟩ else ⟨"SUCCESS", ""⟩)) "icici").2.2
    "s" 2 rfl rfl (by omega) (by decide)
    (fun j q => ⟨"print(1)", rfl⟩)
    (fun j hj => by
      have hj1 : j ≤ 1 := by omega
      simp only [hj1, if_pos]
      decide)
    (by decide)

/-- C2: counterexample — a service-call failure is not absorbed as a failed
attempt: with two attempts of budget left, the run terminates at once with
the raised error and no feedback is recorded. -/
theorem c2_counterexample :
    (main_fn true (some "schema") (some "pdf")
        (fun _ _ => Except.error "ConnectionError: boom")
        (fun _ => Except.ok ⟨"", ""⟩) "icici").run
      = { outcome := RunOutcome.raisedError "ConnectionError: boom", attempts := 1,
          writes := [], feedback := "" } := by
  rfl

/-- C2 (amended): a service-level failure at attempt k raises out of the
loop immediately: the outcome carries the raw error, the attempt counter
stays at k, and the failure is never converted into feedback — it is fatal
even when attempts remain. -/
theorem c2_amended (schema pdfSample : String)
    (llm : Nat → String × String → Except String String)
    (sub : Nat → Except String SubprocResult)
    (r k : Nat) (f : String) (w : List String) (e : String)
    (h : llm k (create_prompt_template schema pdfSample f TARGET_PARSER_PATH) = Except.error e) :
    loopGo schema pdfSample llm sub (r + 1) k f w
      = { outcome := RunOutcome.raisedError e, attempts := k, writes := w, feedback := f } := by
  simp only [loopGo]
  rw [h]

/-- Witness for C2 (amended): a concrete failing service call at attempt 1
with full budget terminates the run at once. -/
theorem c2_amended_witness :
    loopGo "s" "p" (fun _ _ => Except.error "socket timeout")
        (fun _ => Except.ok ⟨"", ""⟩) 3 1 "" []
      = { outcome := RunOutcome.raisedError "socket timeout", attempts := 1, writes := [],
          feedback := "" } :=
  c2_amended "s" "p" (fun _ _ => Except.error "socket timeout")
    (fun _ => Except.ok ⟨"", ""⟩) 2 1 "" [] "socket timeout" rfl

/-- C3: counterexample — a response that is empty after sanitization does
not produce a Generation error: the empty artifact is written, and when the
verification subprocess happens to emit the success marker the attempt even
succeeds. -/
theorem c3_counterexample :
    generate_parser_code "```python```" = ""
    ∧ (main_fn true (some "s") none
        (fun _ _ => Except.ok "```python```")
        (fun _ => Except.ok ⟨"SUCCESS", ""⟩) "icici").run
      = { outcome := RunOutcome.success 1, attempts := 1, writes := [""], feedback := "" } :=
  ⟨by decide, by decide⟩

/-- C3 (amended): an empty-after-sanitization response is not detected by
the generator: the empty artifact is written and the attempt outcome is
decided solely by verification. -/
theorem c3_amended (schema pdfSample : String)
    (llm : Nat → String × String → Except String String)
    (sub : Nat → Except String SubprocResult)
    (r k : Nat) (f : String) (w : List String) (content : String)
    (h1 : llm k (create_prompt_template schema pdfSample f TARGET_PARSER_PATH)
      = Except.ok content)
    (h2 : generate_parser_code content = "") :
    (loopGo schema pdfSample llm sub (r + 1) k f w
      = if (test_generated_parser_fn (sub k)).1 then
          { outcome := RunOutcome.success k, attempts := k,
            writes := w ++ [save_code_to_file (generate_parser_code content)], feedback := f }
        else
          loopGo schema pdfSample llm sub r (k + 1)
            (feedback_message (test_generated_parser_fn (sub k)).2)
            (w ++ [save_code_to_file (generate_parser_code content)]))
    ∧ save_code_to_file (generate_parser_code content) = "" := by
  constructor
  · simp only [loopGo]
    rw [h1]
  · rw [h2]
    decide

/-- Witness for C3 (amended): the concrete empty-after-sanitization response
leads to a successful attempt with an empty artifact written. -/
theorem c3_amended_witness :
    loopGo "s" "p" (fun _ _ => Except.ok "```python```")
        (fun _ => Except.ok ⟨"SUCCESS", ""⟩) 3 1 "" []
      = { outcome := RunOutcome.success 1, attempts := 1, writes := [""], feedback := "" } := by
  have h := c3_amended "s" "p" (fun _ _ => Except.ok "```python```")
    (fun _ => Except.ok ⟨"SUCCESS", ""⟩) 2 1 "" [] "```python```" rfl (by decide)
  rw [h.1, h.2]
  decide

/-- C4: counterexample — applying the sanitization twice differs from
applying it once on a concrete input. -/
theorem c4_counterexample :
    generate_parser_code (generate_parser_code "``````x``````")
      ≠ generate_parser_code "``````x``````" := by decide

/-- C4 (amended): the two whitespace-stripping steps are idempotent, but the
leading-fence step, the trailing-fence step and the composed sanitization
are not idempotent in general. -/
theorem c4_amended :
    (∀ s : String, pyStrip (pyStrip s) = pyStrip s)
    ∧ stripLeadingFence (stripLeadingFence "``````") ≠ stripLeadingFence "``````"
    ∧ stripTrailingFence (stripTrailingFence "``````") ≠ stripTrailingFence "``````"
    ∧ generate_parser_code (generate_parser_code "``````python")
      ≠ generate_parser_code "``````python" :=
  ⟨pyStrip_idem, by decide, by decide, by decide⟩

/-- C5: after a failed attempt the loop continues with a feedback that is
wholly replaced by the corrective message built from that attempt alone
(the previous feedback does not appear in the continuation), and the
diagnostic occurs verbatim in the new feedback and in the human message of
the next prompt. -/
theorem c5_feedback_replaced (schema pdfSample f : String)
    (llm : Nat → String × String → Except String String)
    (sub : Nat → Except String SubprocResult)
    (r k : Nat) (w : List String) (content d : String)
    (h1 : llm k (create_prompt_template schema pdfSample f TARGET_PARSER_PATH)
      = Except.ok content)
    (h2 : test_generated_parser_fn (sub k) = (false, d)) :
    loopGo schema pdfSample llm sub (r + 1) k f w
      = loopGo schema pdfSample llm sub r (k + 1) (feedback_message d)
          (w ++ [save_code_to_file (generate_parser_code content)])
    ∧ feedback_message d
      = "The previous attempt failed. Here is the error message:\n" ++ d
        ++ "\nPlease analyze the error and provide a corrected version of the code."
    ∧ d.data <:+: (feedback_message d).data
    ∧ d.data <:+: (human_message schema pdfSample (feedback_message d) TARGET_PARSER_PATH).data := by
  refine ⟨?_, rfl, ?_, ?_⟩
  · simp only [loopGo]
    rw [h1]
    simp [h2]
  · simp only [feedback_message]
    exact str_infix_append _ _ _
  · have ha : d.data <:+: (feedback_message d).data := by
      simp only [feedback_message]
      exact str_infix_append _ _ _
    have hb : (feedback_message d).data
        <:+: (human_message schema pdfSample (feedback_message d) TARGET_PARSER_PATH).data := by
      simp only [human_message]
      exact str_infix_append _ _ _
    exact ha.trans hb

/-- Witness for C5: a concrete failed first attempt replaces the feedback
"old" with the corrective message embedding the diagnostic. -/
theorem c5_witness :
    loopGo "s" "p" (fun _ _ => Except.ok "code") (fun _ => Except.ok ⟨"", "err"⟩) 3 1 "old" []
      = loopGo "s" "p" (fun _ _ => Except.ok "code") (fun _ => Except.ok ⟨"", "err"⟩) 2 2
          (feedback_message "Testing failed. Error:\nerr") ["code"]
    ∧ "Testing failed. Error:\nerr".data
        <:+: (feedback_message "Testing failed. Error:\nerr").data := by
  have h := c5_feedback_replaced "s" "p" "old" (fun _ _ => Except.ok "code")
    (fun _ => Except.ok ⟨"", "err"⟩) 2 1 [] "code" "Testing failed. Error:\nerr" rfl (by decide)
  refine ⟨?_, h.2.2.1⟩
  have hw : save_code_to_file (generate_parser_code "code") = "code" := by decide
  have h1 := h.1
  rw [hw] at h1
  simpa using h1

/-- C6: the verifier reports pass exactly when the marker SUCCESS occurs as
a substring of the subprocess stdout (also amid other text), and on pass the
returned diagnostic is empty. -/
theorem c6_success_marker (r : SubprocResult) :
    ((test_generated_parser_fn (Except.ok r)).1 = true ↔ "SUCCESS".data <:+: r.stdout.data)
    ∧ ((test_generated_parser_fn (Except.ok r)).1 = true →
        (test_generated_parser_fn (Except.ok r)).2 = "") := by
  by_cases h : "SUCCESS".data <:+: r.stdout.data
  · simp [test_generated_parser_fn, strContains, h]
  · simp [test_generated_parser_fn, strContains, h]

/-- Witness for C6: a stdout carrying the marker amid other text passes with
an empty diagnostic. -/
theorem c6_witness :
    (test_generated_parser_fn (Except.ok ⟨"ok SUCCESS extra", "noise"⟩)).1 = true
    ∧ (test_generated_parser_fn (Except.ok ⟨"ok SUCCESS extra", "noise"⟩)).2 = "" := by
  have h := c6_success_marker ⟨"ok SUCCESS extra", "noise"⟩
  have hm : "SUCCESS".data <:+: ("ok SUCCESS extra" : String).data := by decide
  exact ⟨h.1.mpr hm, h.2 (h.1.mpr hm)⟩

/-- C7: counterexample — on a failure with nonempty stderr and nonempty
stdout the diagnostic keeps only stderr: the combined output text is not
captured (stdout does not occur in the diagnostic). -/
theorem c7_counterexample :
    (test_generated_parser_fn (Except.ok ⟨"out text", "err text"⟩)).1 = false
    ∧ ¬ ("out text".data
        <:+: (test_generated_parser_fn (Except.ok ⟨"out text", "err text"⟩)).2.data) :=
  ⟨by decide, by decide⟩

/-- C7 (amended): every failed verification returns passed = false with a
diagnostic embedding the subprocess stderr when it is nonempty and the
stdout otherwise — one of the two streams, not their combination. -/
theorem c7_amended (r : SubprocResult)
    (h : (test_generated_parser_fn (Except.ok r)).1 = false) :
    (test_generated_parser_fn (Except.ok r)).2
      = "Testing failed. Error:\n" ++ (if r.stderr = "" then r.stdout else r.stderr) := by
  by_cases hm : "SUCCESS".data <:+: r.stdout.data
  · simp [test_generated_parser_fn, strContains, hm] at h
  · simp [test_generated_parser_fn, strContains, hm]

/-- Witness for C7 (amended): a concrete failure with both streams nonempty
yields the stderr-based diagnostic. -/
theorem c7_amended_witness :
    (test_generated_parser_fn (Except.ok ⟨"out line", "err line"⟩)).2
      = "Testing failed. Error:\nerr line" :=
  (c7_amended ⟨"out line", "err line"⟩ (by decide)).trans (by decide)

/-- C9: counterexample — with a sample document that cannot be read (the
reference corpus does not fully resolve), the run is not stopped before the
first attempt: the sentinel text replaces the sample and all three attempts
are performed. -/
theorem c9_counterexample :
    get_pdf_text_sample none = "Could not extract text."
    ∧ (main_fn true (some "s") none
        (fun _ _ => Except.ok "code")
        (fun _ => Except.ok ⟨"", "boom"⟩) "icici").run
      = { outcome := RunOutcome.exhausted, attempts := 3,
          writes := ["code", "code", "code"],
          feedback := feedback_message "Testing failed. Error:\nboom" } :=
  ⟨rfl, by decide⟩

/-- C9 (amended): the missing-credential check and the ground-truth table
load are fatal and happen before any attempt, for every target; a missing
sample document is not fatal — the sentinel text is used and the loop runs. -/
theorem c9_amended (csv pdf : Option String)
    (llm : Nat → String × String → Except String String)
    (sub : Nat → Except String SubprocResult) (t : String) :
    ((main_fn false csv pdf llm sub t).run
      = { outcome := RunOutcome.raisedError "GROQ_API_KEY not found in .env file",
          attempts := 0, writes := [], feedback := "" })
    ∧ ((main_fn true none pdf llm sub t).run
      = { outcome := RunOutcome.raisedError ("FileNotFoundError: " ++ TARGET_CSV_PATH),
          attempts := 0, writes := [], feedback := "" })
    ∧ get_pdf_text_sample none = "Could not extract text."
    ∧ (∀ schema, (main_fn true (some schema) none llm sub t).run
        = run_loop schema "Could not extract text." llm sub) :=
  ⟨rfl, rfl, rfl, fun _ => rfl⟩

/-- C10: the run component of main is the same function of the oracles for
any two target identifiers — the target reaches only the printed banner —
and the corpus and artifact locations are fixed constants. -/
theorem c10_target_independent (hasKey : Bool) (csv pdf : Option String)
    (llm : Nat → String × String → Except String String)
    (sub : Nat → Except String SubprocResult) (t1 t2 : String) :
    (main_fn hasKey csv pdf llm sub t1).run = (main_fn hasKey csv pdf llm sub t2).run
    ∧ TARGET_PARSER_PATH = "custom_parsers/icici_parser.py"
    ∧ TARGET_CSV_PATH = "data/icici/result.csv"
    ∧ TARGET_PDF_PATH = "data/icici/icici_sample.pdf" :=
  ⟨rfl, rfl, rfl, rfl⟩
